import Mathlib

set_option linter.unusedVariables false

/-!
Verification of the interpreted-text role resolution module
(`docutils/parsers/rst/roles.py`).

The Python module is embedded shallowly:

* Python dicts (`_role_registry`, `_roles`, the `roles` attribute of a
  language module) become association lists `Registry α` with
  `List.lookup` for `has_key`/`[]` and `dictSet` for item assignment.
* The two module-level mutable dicts become an explicit `RolesState`
  threaded through `role`, which returns the new state alongside the
  Python return value.
* `inliner.reporter.info` / `inliner.reporter.error` build a `Message`
  value directly (the reporter of the external diagnostic subsystem is
  the function `(text, severity, line) -> Message`).
* `_fallback_language_module.roles` (the English language module, not
  part of the analysed file) is a `Registry String` parameter of `role`.
* `inliner.pep_url % n` / `inliner.rfc_url % n` (external string
  templates with one integer substitution) are function fields
  `pep_url rfc_url : Int -> String` of `Inliner`.
* Python `int(text)` is `pyInt`: strip ASCII whitespace, optional sign,
  one or more decimal digits.
-/

set_option autoImplicit false

/-- Severity of a system message; this module only requests `info` or
`error` from the reporter. -/
inductive Severity : Type where
  | info : Severity
  | error : Severity
deriving DecidableEq

/-- A system message as produced by `inliner.reporter.info` /
`inliner.reporter.error` with a `line` keyword. -/
structure Message : Type where
  severity : Severity
  text : String
  line : Int
deriving DecidableEq

/-- A docutils node class such as `nodes.emphasis` or `nodes.inline`,
identified by its class name. -/
structure NodeClass : Type where
  className : String
deriving DecidableEq

/-- Attribute mappings (`attributes` dicts) carried by generated nodes. -/
abbrev Attrs : Type := List (String × String)

/-- Output nodes built by the role functions of the module:
`node_class(rawtext, text, **attributes)`, `nodes.reference(rawtext,
text, refuri=ref)`, and `inliner.problematic(rawsource, text, msg)`. -/
inductive Node : Type where
  | element (cls : NodeClass) (rawsource : String) (text : String)
      (attributes : Attrs)
  | reference (rawsource : String) (text : String) (refuri : String)
  | problematic (rawsource : String) (text : String) (msg : Message)
deriving DecidableEq

/-- `nodes.inline`, the node class used for document-defined custom
roles. -/
def nodes_inline : NodeClass := ⟨"inline"⟩

/-- The parts of the external `Inliner` object that the role functions
use: the PEP and RFC URL templates, each applied to one integer
(`inliner.pep_url % pepnum`, `inliner.rfc_url % rfcnum`). -/
structure Inliner : Type where
  pep_url : Int → String
  rfc_url : Int → String

/-- A Python dict keyed by strings, as an association list. -/
abbrev Registry (α : Type) : Type := List (String × α)

/-- Dict item assignment `d[key] = v`: replace the binding in place if
the key is present, otherwise append it. -/
def dictSet {α : Type} : Registry α → String → α → Registry α
  | [], key, v => [(key, v)]
  | (k, w) :: rest, key, v =>
      if k = key then (key, v) :: rest else (k, w) :: dictSet rest key v

/-- A language module as seen by `role`: its `__name__`, its `repr`
(used by the `%r` format), the text of the `AttributeError` raised when
the `roles` attribute is missing, and the `roles` dict itself (`none`
models a module without a `roles` attribute). -/
structure LanguageModule : Type where
  moduleName : String
  reprStr : String
  attrError : String
  roles : Option (Registry String)

/-- The canonical name of the default interpreted role. -/
def DEFAULT_INTERPRETED_ROLE : String := "title-reference"

/-- The two module-level registries: `_role_registry` (canonical role
names to role functions) and `_roles` (local or language-dependent names
to role functions). -/
structure RolesState (α : Type) : Type where
  role_registry : Registry α
  roles : Registry α
deriving DecidableEq

/-- `register_local_role(name, role_fn)`: store the role function in
`_roles` under `name`. -/
def register_local_role {α : Type} (name : String) (role_fn : α)
    (roles : Registry α) : Registry α :=
  dictSet roles name role_fn

/-- `register_canonical_role(name, role_fn)`: store the role function in
`_role_registry` under `name`. -/
def register_canonical_role {α : Type} (name : String) (role_fn : α)
    (reg : Registry α) : Registry α :=
  dictSet reg name role_fn

/-- Text of the message for a failing attribute access on the language
module (`'Problem retrieving role entry from language module %r: %s.'`). -/
def problemRetrievingText (language_module : LanguageModule) : String :=
  "Problem retrieving role entry from language module " ++
    language_module.reprStr ++ ": " ++ language_module.attrError ++ "."

/-- Text of the message for a missing entry in the language module
(`'No role entry for "%s" in module "%s".'`). -/
def noRoleEntryText (role_name modname : String) : String :=
  "No role entry for \"" ++ role_name ++ "\" in module \"" ++ modname ++ "\"."

/-- Text of the message noting English fallback
(`'Using English fallback for role "%s".'`). -/
def englishFallbackText (role_name : String) : String :=
  "Using English fallback for role \"" ++ role_name ++ "\"."

/-- Text of the message noting that the normalized name itself will be
tried as canonical (`'Trying "%s" as canonical role name.'`). -/
def tryingCanonicalText (role_name : String) : String :=
  "Trying \"" ++ role_name ++ "\" as canonical role name."

/-- Python 2 `str.lower()`: lowercase the ASCII letters. -/
def pyLower (s : String) : String :=
  String.mk (s.data.map Char.toLower)

/-- Python `str.strip()` on a character list: drop whitespace from both
ends. -/
def pyStrip (cs : List Char) : List Char :=
  ((cs.dropWhile Char.isWhitespace).reverse.dropWhile Char.isWhitespace).reverse

/-- Python `'\n'.join(lines)`. -/
def joinLines : List String → String
  | [] => ""
  | [x] => x
  | x :: xs => x ++ "\n" ++ joinLines xs

/-- Python truthiness test `not canonicalname` for an optional string:
true for `None` and for the empty string. -/
def pyFalsy : Option String → Bool
  | none => true
  | some s => s == ""

/-- First phase of `role`: the `if role_name: ... else:` block.  For a
non-empty name, look `normname` up in `language_module.roles`, recording
one note on `AttributeError` (missing `roles` attribute) or `KeyError`
(missing entry); for the empty name the canonical name is
`DEFAULT_INTERPRETED_ROLE`.  Returns `canonicalname` (still `none` when
unresolved) together with the accumulated `msg_text` lines. -/
def roleStep1 (role_name normname : String)
    (language_module : LanguageModule) : Option String × List String :=
  if role_name = "" then
    (some DEFAULT_INTERPRETED_ROLE, [])
  else
    match language_module.roles with
    | none => (none, [problemRetrievingText language_module])
    | some tbl =>
        match tbl.lookup normname with
        | some c => (some c, [])
        | none => (none, [noRoleEntryText role_name language_module.moduleName])

/-- Second phase of `role`: the `if not canonicalname:` block.  When the
canonical name is still falsy, consult the fallback (English) `roles`
table; on a hit use its value and note the fallback, otherwise use
`normname` itself and note that it is being tried as canonical. -/
def roleStep2 (normname role_name : String)
    (s1 : Option String × List String) (fallback_roles : Registry String) :
    String × List String :=
  if pyFalsy s1.1 then
    match fallback_roles.lookup normname with
    | some c => (c, s1.2 ++ [englishFallbackText role_name])
    | none => (normname, s1.2 ++ [tryingCanonicalText role_name])
  else
    (s1.1.getD "", s1.2)

/-- `role(role_name, language_module, lineno, inliner)`: locate a role
function from its language-dependent name.  Returns the Python return
value `(role_fn_or_None, messages)` together with the updated module
state.  `fallback_roles` stands for `_fallback_language_module.roles`;
the single `inliner.reporter.info` call on the collected `msg_text`
lines is the `Message` built from their `'\n'.join`. -/
def role {α : Type} (role_name : String) (language_module : LanguageModule)
    (lineno : Int) (fallback_roles : Registry String) (st : RolesState α) :
    (Option α × List Message) × RolesState α :=
  match st.roles.lookup (pyLower role_name) with
  | some role_fn => ((some role_fn, []), st)
  | none =>
      let cm := roleStep2 (pyLower role_name) role_name
        (roleStep1 role_name (pyLower role_name) language_module) fallback_roles
      let messages : List Message :=
        if cm.2.isEmpty then []
        else [⟨Severity.info, joinLines cm.2, lineno⟩]
      match st.role_registry.lookup cm.1 with
      | some role_fn =>
          ((some role_fn, messages),
            { st with
                roles := register_local_role (pyLower role_name) role_fn st.roles })
      | none => ((none, messages), st)

/-- Numeric value of a non-empty, all-decimal-digit character list;
`none` otherwise. -/
def digitsVal (cs : List Char) : Option Nat :=
  if cs ≠ [] ∧ cs.all Char.isDigit then
    some (cs.foldl (fun a c => a * 10 + (c.toNat - 48)) 0)
  else none

/-- Python `int(text)` in base 10: strip surrounding whitespace, allow
one optional sign, then one or more decimal digits; `none` models the
`ValueError` raised on any other shape. -/
def pyInt (s : String) : Option Int :=
  match pyStrip s.data with
  | '-' :: rest => (digitsVal rest).map (fun n => -(n : Int))
  | '+' :: rest => (digitsVal rest).map (fun n => (n : Int))
  | cs => (digitsVal cs).map (fun n => (n : Int))

/-- The error message built by `pep_reference_role` on failure
(`'PEP number must be a number from 0 to 9999; "%s" is invalid.'`). -/
def pepErrMsg (text : String) (lineno : Int) : Message :=
  ⟨Severity.error,
    "PEP number must be a number from 0 to 9999; \"" ++ text ++
      "\" is invalid.", lineno⟩

/-- The `except ValueError` branch of `pep_reference_role`: the error
message plus `inliner.problematic(text, text, msg)`. -/
def pepErrorResult (text : String) (lineno : Int) : List Node × List Message :=
  ([Node.problematic text text (pepErrMsg text lineno)],
    [pepErrMsg text lineno])

/-- `pep_reference_role`: parse `text` as an integer; out-of-range
values `raise ValueError` into the same `except` branch as parse
failures; on success build `nodes.reference(rawtext, 'PEP ' + text,
refuri=inliner.pep_url % pepnum)`. -/
def pep_reference_role (role_arg rawtext text : String) (lineno : Int)
    (inl : Inliner) : List Node × List Message :=
  match pyInt text with
  | some pepnum =>
      if pepnum < 0 ∨ pepnum > 9999 then
        pepErrorResult text lineno
      else
        ([Node.reference rawtext ("PEP " ++ text) (inl.pep_url pepnum)], [])
  | none => pepErrorResult text lineno

/-- The error message built by `rfc_reference_role` on failure
(`'RFC number must be a number greater than or equal to 1; "%s" is
invalid.'`). -/
def rfcErrMsg (text : String) (lineno : Int) : Message :=
  ⟨Severity.error,
    "RFC number must be a number greater than or equal to 1; \"" ++ text ++
      "\" is invalid.", lineno⟩

/-- The `except ValueError` branch of `rfc_reference_role`. -/
def rfcErrorResult (text : String) (lineno : Int) : List Node × List Message :=
  ([Node.problematic text text (rfcErrMsg text lineno)],
    [rfcErrMsg text lineno])

/-- `rfc_reference_role`: like the PEP role with predicate `rfcnum <= 0
-> ValueError`, label `'RFC '` and template `inliner.rfc_url`. -/
def rfc_reference_role (role_arg rawtext text : String) (lineno : Int)
    (inl : Inliner) : List Node × List Message :=
  match pyInt text with
  | some rfcnum =>
      if rfcnum ≤ 0 then
        rfcErrorResult text lineno
      else
        ([Node.reference rawtext ("RFC " ++ text) (inl.rfc_url rfcnum)], [])
  | none => rfcErrorResult text lineno

/-- `generic_role_helper(node_class, role, rawtext, text, lineno,
inliner, attributes={})`: wrap the text in one node
`node_class(rawtext, text, **attributes)` and return no messages. -/
def generic_role_helper (node_class : NodeClass)
    (role_arg rawtext text : String) (lineno : Int) (inl : Inliner)
    (attributes : Attrs := []) : List Node × List Message :=
  ([Node.element node_class rawtext text attributes], [])

/-- The closure `role_fn` built by `register_generic_role(canonical_name,
node_class)`.  Its Python parameter list is `(role, rawtext, text,
lineno, inliner, nc=node_class)` — it has no `attributes` parameter, so
`generic_role_helper` is always called with its default empty
`attributes`. -/
def generic_role_fn (node_class : NodeClass) (role_arg rawtext text : String)
    (lineno : Int) (inl : Inliner) : List Node × List Message :=
  generic_role_helper node_class role_arg rawtext text lineno inl

/-- The five-positional-argument role-function calling convention used
by the registries. -/
abbrev RoleFn : Type :=
  String → String → String → Int → Inliner → List Node × List Message

/-- `register_generic_role(canonical_name, node_class)`: build the
generic closure and register it canonically. -/
def register_generic_role (canonical_name : String) (node_class : NodeClass)
    (reg : Registry RoleFn) : Registry RoleFn :=
  register_canonical_role canonical_name (generic_role_fn node_class) reg

/-- The closure `role_fn` built by `register_custom_role(local_name,
attributes)`.  Its Python parameter list is `(role, rawtext, text,
lineno, inliner, atts=attributes)`: the sixth parameter defaults to the
attributes captured at registration time, and a sixth call-time argument
replaces them. -/
def custom_role_fn (attributes : Attrs) (role_arg rawtext text : String)
    (lineno : Int) (inl : Inliner) (atts : Attrs := attributes) :
    List Node × List Message :=
  generic_role_helper nodes_inline role_arg rawtext text lineno inl atts

/-- `register_custom_role(local_name, attributes)`: build the custom
closure and register it locally. -/
def register_custom_role (local_name : String) (attributes : Attrs)
    (roles : Registry RoleFn) : Registry RoleFn :=
  register_local_role local_name
    (fun role_arg rawtext text lineno inl =>
      custom_role_fn attributes role_arg rawtext text lineno inl) roles

/-- A sample inliner with constant URL templates, used to evaluate the
role functions at concrete inputs. -/
def inliner0 : Inliner :=
  { pep_url := fun _ => "pep-url", rfc_url := fun _ => "rfc-url" }

/-- A sample language module whose `roles` table maps `betonung` to
`emphasis` and nothing else. -/
def lmDe : LanguageModule :=
  { moduleName := "docutils.parsers.rst.languages.de"
    reprStr := "langmodule-de"
    attrError := "attribute roles missing"
    roles := some [("betonung", "emphasis")] }

/-- Sample state: local registry already caches `myrole`. -/
def stLocalHit : RolesState Nat :=
  { role_registry := [], roles := [("myrole", 7)] }

/-- Sample state: canonical registry holds `strong`, local cache empty. -/
def stFallback : RolesState Nat :=
  { role_registry := [("strong", 4)], roles := [] }

/-- Sample state: canonical registry holds `zap`, local cache empty. -/
def stRawName : RolesState Nat :=
  { role_registry := [("zap", 3)], roles := [] }

/-- Sample state: canonical registry holds the default role only. -/
def stDefault : RolesState Nat :=
  { role_registry := [("title-reference", 9)], roles := [] }

/-- Sample state: both registries empty. -/
def stEmpty : RolesState Nat :=
  { role_registry := [], roles := [] }

/-- Looking up a key right after a dict assignment of that key yields
the assigned value. -/
theorem lookup_dictSet_self {α : Type} (m : Registry α) (k : String) (v : α) :
    (dictSet m k v).lookup k = some v := by
  induction m with
  | nil => simp [dictSet]
  | cons p rest ih =>
    rcases p with ⟨k1, v1⟩
    by_cases h : k1 = k
    · simp [dictSet, h]
    · have hb : (k == k1) = false := beq_eq_false_iff_ne.mpr (Ne.symm h)
      simp [dictSet, h, List.lookup, hb, ih]

/-- Claim C2: a role name whose lowercased form has an entry in the
Local Registry resolves to that stored role function with an empty
message list, for every language module, fallback table and line
number, leaving the state unchanged (so neither the locale table, the
fallback table nor the Canonical Registry can influence the result). -/
theorem role_local_registry_hit {α : Type} (role_name : String)
    (lm : LanguageModule) (lineno : Int) (fb : Registry String)
    (st : RolesState α) (fn : α)
    (h : st.roles.lookup (pyLower role_name) = some fn) :
    role role_name lm lineno fb st = ((some fn, []), st) := by
  unfold role
  rw [h]

/-- Claim C2 witness: resolving `MyRole` against a local registry that
caches `myrole` returns the cached role function with no messages. -/
theorem role_local_registry_hit_witness :
    role "MyRole" lmDe 2 [] stLocalHit = ((some 7, []), stLocalHit) :=
  role_local_registry_hit "MyRole" lmDe 2 [] stLocalHit 7 (by decide)

/-- Claim C9: `role` never changes the Canonical Registry: on every
input the `role_registry` component of the state after the call equals
the one before it (the resolver writes, at most, the Local Registry). -/
theorem role_preserves_canonical_registry {α : Type} (role_name : String)
    (lm : LanguageModule) (lineno : Int) (fb : Registry String)
    (st : RolesState α) :
    ((role role_name lm lineno fb st).2).role_registry = st.role_registry := by
  unfold role
  split
  · rfl
  · dsimp only
    split
    · rfl
    · rfl

/-- Claim C10: whenever `role` returns no role function (NotFound), the
whole state — in particular the Local Registry — is exactly the state
before the call: memoization happens only on the success path. -/
theorem role_notfound_preserves_state {α : Type} (role_name : String)
    (lm : LanguageModule) (lineno : Int) (fb : Registry String)
    (st : RolesState α)
    (h : (role role_name lm lineno fb st).1.1 = none) :
    (role role_name lm lineno fb st).2 = st := by
  rcases hl : st.roles.lookup (pyLower role_name) with _ | fn
  · rcases hr : st.role_registry.lookup
        (roleStep2 (pyLower role_name) role_name
          (roleStep1 role_name (pyLower role_name) lm) fb).1 with _ | fn2
    · simp only [role, hl, hr]
    · simp only [role, hl, hr] at h
      exact Option.noConfusion h
  · simp only [role, hl] at h
    exact Option.noConfusion h

/-- Claim C10 witness: resolving `nope` against empty registries fails
and leaves the empty state untouched. -/
theorem role_notfound_preserves_state_witness :
    (role "nope" lmDe 1 [] stEmpty).2 = stEmpty :=
  role_notfound_preserves_state "nope" lmDe 1 [] stEmpty (by decide)

/-- Claim C4: resolving the empty role name, when the empty string is
not cached in the Local Registry, returns the role function stored in
the Canonical Registry under `DEFAULT_INTERPRETED_ROLE` with an empty
message list (and memoizes it under the empty string), for every
language module and fallback table. -/
theorem role_empty_name_uses_default {α : Type} (lm : LanguageModule)
    (lineno : Int) (fb : Registry String) (st : RolesState α) (fn : α)
    (hlocal : st.roles.lookup "" = none)
    (hreg : st.role_registry.lookup DEFAULT_INTERPRETED_ROLE = some fn) :
    role "" lm lineno fb st =
      ((some fn, []),
        { st with roles := register_local_role "" fn st.roles }) := by
  have hp : pyLower "" = "" := rfl
  have h12 : roleStep2 "" "" (roleStep1 "" "" lm) fb =
      (DEFAULT_INTERPRETED_ROLE, []) := rfl
  simp only [role, hp, hlocal, h12, hreg]
  simp

/-- Claim C4 witness: with `title-reference` mapped to role function `9`
in the Canonical Registry, the empty name resolves to `9` with no
messages. -/
theorem role_empty_name_uses_default_witness :
    role "" lmDe 1 [] stDefault =
      ((some 9, []),
        { role_registry := [("title-reference", 9)], roles := [("", 9)] }) :=
  role_empty_name_uses_default lmDe 1 [] stDefault 9 (by decide) (by decide)

/-- Claim C3: for a non-empty role name that is not cached locally,
whose lowercased form is missing from the given locale table but mapped
by the fallback (English) table to a canonical name present in the
Canonical Registry, resolution returns that role function together with
exactly one informational message (whose text joins the locale-miss
note and the fallback note), and afterwards the Local Registry maps the
lowercased name to that role function. -/
theorem role_english_fallback_memoized {α : Type} (role_name : String)
    (lm : LanguageModule) (tbl : Registry String) (lineno : Int)
    (fb : Registry String) (st : RolesState α) (c : String) (fn : α)
    (hne : role_name ≠ "")
    (hlocal : st.roles.lookup (pyLower role_name) = none)
    (htbl : lm.roles = some tbl)
    (hmiss : tbl.lookup (pyLower role_name) = none)
    (hfb : fb.lookup (pyLower role_name) = some c)
    (hreg : st.role_registry.lookup c = some fn) :
    role role_name lm lineno fb st =
      ((some fn,
        [⟨Severity.info,
          joinLines [noRoleEntryText role_name lm.moduleName,
            englishFallbackText role_name], lineno⟩]),
        { st with
            roles := register_local_role (pyLower role_name) fn st.roles })
    ∧ ((role role_name lm lineno fb st).2).roles.lookup (pyLower role_name) =
        some fn := by
  have h1 : roleStep1 role_name (pyLower role_name) lm =
      (none, [noRoleEntryText role_name lm.moduleName]) := by
    simp [roleStep1, hne, htbl, hmiss]
  have h2 : roleStep2 (pyLower role_name) role_name
      (roleStep1 role_name (pyLower role_name) lm) fb =
      (c, [noRoleEntryText role_name lm.moduleName,
        englishFallbackText role_name]) := by
    simp [h1, roleStep2, pyFalsy, hfb]
  have hmain : role role_name lm lineno fb st =
      ((some fn,
        [⟨Severity.info,
          joinLines [noRoleEntryText role_name lm.moduleName,
            englishFallbackText role_name], lineno⟩]),
        { st with
            roles := register_local_role (pyLower role_name) fn st.roles }) := by
    simp only [role, hlocal, h2, hreg]
    simp
  refine ⟨hmain, ?_⟩
  rw [hmain]
  exact lookup_dictSet_self st.roles (pyLower role_name) fn

/-- Claim C3 witness: `Strong` is missing from the German table, the
fallback maps `strong` to `strong`, and the Canonical Registry holds
`strong`; resolution returns role function `4` with one informational
message and caches `strong`. -/
theorem role_english_fallback_memoized_witness :
    role "Strong" lmDe 3 [("strong", "strong")] stFallback =
      ((some 4,
        [⟨Severity.info,
          joinLines [noRoleEntryText "Strong" lmDe.moduleName,
            englishFallbackText "Strong"], 3⟩]),
        { role_registry := [("strong", 4)], roles := [("strong", 4)] })
    ∧ ((role "Strong" lmDe 3 [("strong", "strong")] stFallback).2).roles.lookup
        (pyLower "Strong") = some 4 :=
  role_english_fallback_memoized "Strong" lmDe [("betonung", "emphasis")] 3
    [("strong", "strong")] stFallback "strong" 4 (by decide) (by decide)
    (by decide) (by decide) (by decide) (by decide)

/-- Claim C1 (amended): for a non-empty role name absent from the Local
Registry, from the given locale table and from the fallback table, the
resolver tries the lowercased name itself as canonical; on a Canonical
Registry hit it returns that role function, and otherwise NotFound with
no role function — in both cases accompanied by exactly ONE
informational message whose text joins the two notes (the locale miss
and the trying-as-canonical note), not by two separate messages: the
code funnels all accumulated `msg_text` lines into a single
`reporter.info` call. -/
theorem role_unknown_name_single_joined_message {α : Type}
    (role_name : String) (lm : LanguageModule) (tbl : Registry String)
    (lineno : Int) (fb : Registry String) (st : RolesState α)
    (hne : role_name ≠ "")
    (hlocal : st.roles.lookup (pyLower role_name) = none)
    (htbl : lm.roles = some tbl)
    (hmiss : tbl.lookup (pyLower role_name) = none)
    (hfb : fb.lookup (pyLower role_name) = none) :
    (∀ fn, st.role_registry.lookup (pyLower role_name) = some fn →
      role role_name lm lineno fb st =
        ((some fn,
          [⟨Severity.info,
            joinLines [noRoleEntryText role_name lm.moduleName,
              tryingCanonicalText role_name], lineno⟩]),
          { st with
              roles := register_local_role (pyLower role_name) fn st.roles }))
    ∧ (st.role_registry.lookup (pyLower role_name) = none →
      role role_name lm lineno fb st =
        ((none,
          [⟨Severity.info,
            joinLines [noRoleEntryText role_name lm.moduleName,
              tryingCanonicalText role_name], lineno⟩]), st)) := by
  have h1 : roleStep1 role_name (pyLower role_name) lm =
      (none, [noRoleEntryText role_name lm.moduleName]) := by
    simp [roleStep1, hne, htbl, hmiss]
  have h2 : roleStep2 (pyLower role_name) role_name
      (roleStep1 role_name (pyLower role_name) lm) fb =
      (pyLower role_name, [noRoleEntryText role_name lm.moduleName,
        tryingCanonicalText role_name]) := by
    simp [h1, roleStep2, pyFalsy, hfb]
  constructor
  · intro fn hreg
    simp only [role, hlocal, h2, hreg]
    simp
  · intro hreg
    simp only [role, hlocal, h2, hreg]
    simp

/-- Claim C1 counterexample: `zap` is unknown to the local registry,
the German table and the (empty) fallback table, and the Canonical
Registry does hold `zap`; resolution succeeds but the returned message
list has length 1, not 2 — the two notes are joined into one
informational message, so the claimed "exactly two informational
diagnostics" is false. -/
theorem role_unknown_name_not_two_diagnostics :
    (role "zap" lmDe 5 [] stRawName).1.1 = some 3
    ∧ (role "zap" lmDe 5 [] stRawName).1.2.length = 1
    ∧ (role "zap" lmDe 5 [] stRawName).1.2.length ≠ 2 := by
  decide

/-- Claim C1 witness: the amended statement evaluated on the `zap`
scenario (Canonical Registry hit) and on the same name against an empty
Canonical Registry (NotFound), in both cases with the single joined
informational message. -/
theorem role_unknown_name_single_joined_message_witness :
    role "zap" lmDe 5 [] stRawName =
      ((some 3,
        [⟨Severity.info,
          joinLines [noRoleEntryText "zap" lmDe.moduleName,
            tryingCanonicalText "zap"], 5⟩]),
        { role_registry := [("zap", 3)], roles := [("zap", 3)] }) :=
  (role_unknown_name_single_joined_message "zap" lmDe
      [("betonung", "emphasis")] 5 [] stRawName (by decide) (by decide)
      (by decide) (by decide) (by decide)).1 3 (by decide)

/-- Claim C5 (amended): on a parse failure or a range failure, each
numeric-reference role emits one error-severity message naming the
valid range and returns exactly one problematic node — wrapping the
CONTENT text (the `text` argument, not the raw construct `rawtext`) and
carrying that message — plus exactly that one message. -/
theorem numeric_reference_failure_shape :
    (∀ (role_arg rawtext text : String) (lineno : Int) (inl : Inliner),
      (pyInt text = none ∨ ∃ n, pyInt text = some n ∧ (n < 0 ∨ 9999 < n)) →
      pep_reference_role role_arg rawtext text lineno inl =
        ([Node.problematic text text (pepErrMsg text lineno)],
          [pepErrMsg text lineno])
      ∧ (pepErrMsg text lineno).severity = Severity.error)
    ∧ (∀ (role_arg rawtext text : String) (lineno : Int) (inl : Inliner),
      (pyInt text = none ∨ ∃ n, pyInt text = some n ∧ n ≤ 0) →
      rfc_reference_role role_arg rawtext text lineno inl =
        ([Node.problematic text text (rfcErrMsg text lineno)],
          [rfcErrMsg text lineno])
      ∧ (rfcErrMsg text lineno).severity = Severity.error) := by
  constructor
  · rintro role_arg rawtext text lineno inl (h | ⟨n, hn, hrange⟩)
    · exact ⟨by simp [pep_reference_role, h, pepErrorResult], rfl⟩
    · refine ⟨?_, rfl⟩
      have hb : n < 0 ∨ n > 9999 := by
        rcases hrange with h | h
        · exact Or.inl h
        · exact Or.inr h
      simp [pep_reference_role, hn, hb, pepErrorResult]
  · rintro role_arg rawtext text lineno inl (h | ⟨n, hn, hle⟩)
    · exact ⟨by simp [rfc_reference_role, h, rfcErrorResult], rfl⟩
    · refine ⟨?_, rfl⟩
      simp [rfc_reference_role, hn, hle, rfcErrorResult]

/-- Claim C5 witness: the out-of-range PEP input `10000` and the
out-of-range RFC input `0` each produce the single problematic node and
the single error message. -/
theorem numeric_reference_failure_shape_witness :
    pep_reference_role "pep" "RAW" "10000" 3 inliner0 =
      ([Node.problematic "10000" "10000" (pepErrMsg "10000" 3)],
        [pepErrMsg "10000" 3])
    ∧ rfc_reference_role "rfc" "RAW" "0" 3 inliner0 =
      ([Node.problematic "0" "0" (rfcErrMsg "0" 3)], [rfcErrMsg "0" 3]) :=
  ⟨(numeric_reference_failure_shape.1 "pep" "RAW" "10000" 3 inliner0
      (Or.inr ⟨10000, by decide, Or.inr (by decide)⟩)).1,
    (numeric_reference_failure_shape.2 "rfc" "RAW" "0" 3 inliner0
      (Or.inr ⟨0, by decide, by decide⟩)).1⟩

/-- Claim C5 counterexample: on the unparsable content `abc` inside the
raw construct `RAWCONSTRUCT`, the problematic node wraps `abc` — the
content text — and not the full original construct, so the claim that
the raw text is wrapped is false. -/
theorem pep_problematic_wraps_content_text :
    (pep_reference_role "pep" "RAWCONSTRUCT" "abc" 1 inliner0).1 =
      [Node.problematic "abc" "abc" (pepErrMsg "abc" 1)]
    ∧ "abc" ≠ "RAWCONSTRUCT" :=
  ⟨rfl, by decide⟩

/-- Claim C6: the PEP role applied to the content `15` returns exactly
one reference node labelled `PEP 15` whose URI is the PEP URL template
instantiated with 15, and no messages; and on every input it returns
either exactly one reference node with no messages or exactly one
problematic node with exactly one message, never a mix. -/
theorem pep_reference_valid_and_dichotomy :
    (∀ (role_arg rawtext : String) (lineno : Int) (inl : Inliner),
      pep_reference_role role_arg rawtext "15" lineno inl =
        ([Node.reference rawtext "PEP 15" (inl.pep_url 15)], []))
    ∧ (∀ (role_arg rawtext text : String) (lineno : Int) (inl : Inliner),
      (∃ n, pyInt text = some n ∧
        pep_reference_role role_arg rawtext text lineno inl =
          ([Node.reference rawtext ("PEP " ++ text) (inl.pep_url n)], []))
      ∨ pep_reference_role role_arg rawtext text lineno inl =
          ([Node.problematic text text (pepErrMsg text lineno)],
            [pepErrMsg text lineno])) := by
  constructor
  · intro role_arg rawtext lineno inl
    rfl
  · intro role_arg rawtext text lineno inl
    rcases h : pyInt text with _ | n
    · right
      simp [pep_reference_role, h, pepErrorResult]
    · by_cases hr : n < 0 ∨ n > 9999
      · right
        simp [pep_reference_role, h, hr, pepErrorResult]
      · left
        exact ⟨n, rfl, by simp [pep_reference_role, h, hr]⟩

/-- Claim C7: the closure produced by `register_generic_role` has no
`attributes` parameter (its sixth Python parameter is `nc=node_class`),
so on every invocation it returns exactly one node built with an EMPTY
attribute mapping and no messages; an attributes mapping supplied at
call time can never reach the node construction. -/
theorem generic_role_fn_attributes_always_empty :
    ∀ (node_class : NodeClass) (role_arg rawtext text : String)
      (lineno : Int) (inl : Inliner),
      generic_role_fn node_class role_arg rawtext text lineno inl =
        ([Node.element node_class rawtext text []], []) := by
  intro node_class role_arg rawtext text lineno inl
  rfl

/-- Claim C8 (amended): the closure produced by `register_custom_role`
with fixed attributes `A`, invoked with the standard five arguments,
returns exactly one `inline` node whose attributes equal `A` (the
optional sixth parameter defaults to the captured attributes); but a
mapping supplied as the sixth call-time argument REPLACES `A` instead
of being ignored. -/
theorem custom_role_fn_capture_and_override :
    ∀ (attributes : Attrs) (role_arg rawtext text : String) (lineno : Int)
      (inl : Inliner),
      custom_role_fn attributes role_arg rawtext text lineno inl =
        ([Node.element nodes_inline rawtext text attributes], [])
      ∧ ∀ atts : Attrs,
        custom_role_fn attributes role_arg rawtext text lineno inl atts =
          ([Node.element nodes_inline rawtext text atts], []) := by
  intro attributes role_arg rawtext text lineno inl
  exact ⟨rfl, fun _ => rfl⟩

/-- Claim C8 counterexample: the custom-role closure built from
`class=highlight`, called with the attribute mapping `k=v` as its sixth
argument, produces an inline node carrying `k=v` — the call-time
attributes are not ignored and the node's attribute set differs from
the captured one. -/
theorem custom_role_fn_sixth_argument_not_ignored :
    custom_role_fn [("class", "highlight")] "r" "raw" "txt" 1 inliner0
        [("k", "v")] =
      ([Node.element nodes_inline "raw" "txt" [("k", "v")]], [])
    ∧ ([("k", "v")] : Attrs) ≠ [("class", "highlight")] :=
  ⟨rfl, by decide⟩
